import Mathlib

/-!
Shallow embedding of `valido/valido_decorators.py` (Valido: Spark DataFrame
column validator).  Dataframes are modelled by their schema metadata only
(the code reads nothing else): a list of (column-name, dtype-string) pairs,
from which both `df.columns` and `df.dtypes` derive, exactly as in Spark.
Python dynamic values are modelled by the small universe `PyValue` of value
shapes the code distinguishes; Python exceptions become `Except PyError`.
Wrapped functions are modelled as pure functions of (positional, keyword)
arguments; each wrapper is embedded as a function returning the call result
(or the raised error) together with an explicit trace: the list of argument
pairs the wrapped function was invoked with, and for the logger the list of
strings passed to `print`.
-/

namespace Valido

/-- The single-quote character, used when rendering Python `repr` of strings. -/
def sq : String := String.singleton (Char.ofNat 39)

/-- The newline character. -/
def nl : Char := Char.ofNat 10

/-- A Spark dataframe as the code observes it: its schema. `df.columns` and
`df.dtypes` are both derived from the schema fields, as in pyspark. -/
structure DataFrame where
  fields : List (String × String)
deriving Repr, DecidableEq

/-- Embeds `df.columns`: the ordered list of column names. -/
def columns (df : DataFrame) : List String := df.fields.map Prod.fst

/-- Embeds `df.dtypes`: the ordered list of (name, dtype) pairs. -/
def dtypes (df : DataFrame) : List (String × String) := df.fields

/-- Embeds `dict(df.dtypes)[c]`: Python dict construction keeps the last value for a
repeated key, hence lookup on the reversed pair list. -/
def colDtypeDict (df : DataFrame) (column : String) : Option String :=
  (dtypes df).reverse.lookup column

/-- Python `repr` of a list of strings, e.g. `.intercalate` of quoted names. -/
def pyStrListRepr (l : List String) : String :=
  "[" ++ String.intercalate ", " (l.map (fun s => sq ++ s ++ sq)) ++ "]"

/-- Embeds `_describe_df(df, include_dtypes)`. -/
def describeDf (df : DataFrame) (includeDtypes : Bool) : String :=
  let result := "columns: " ++ pyStrListRepr (columns df)
  if includeDtypes then
    result ++ " with dtypes " ++ pyStrListRepr ((dtypes df).map Prod.snd)
  else result

/-- The column specification passed to a wrapper: a Python list of names, a
dict mapping names to dtypes, or any other sized container of names (for
example a tuple or a set), which `_check_columns`'s two `isinstance` tests
both miss. -/
inductive ColumnsDef
| listSpec (names : List String)
| dictSpec (items : List (String × String))
| tupleSpec (names : List String)
deriving Repr, DecidableEq

/-- The violation behind each `assert` in `_check_columns`, carrying the data
interpolated into the message. -/
inductive CheckError
| missingColumn (column : String) (dfColumns : List String)
| dtypeMismatch (column : String) (actual : String) (expected : String)
| unexpectedColumns (surplus : List String)
deriving Repr, DecidableEq

/-- The message of the `AssertionError` each `_check_columns` violation
raises, exactly as the f-strings in the source format it. -/
def renderCheckError : CheckError → String
  | .missingColumn column dfColumns =>
      "Column " ++ column ++ " missing from DataFrame. Got columns: " ++
        pyStrListRepr dfColumns
  | .dtypeMismatch column actual expected =>
      "Column " ++ column ++ " has wrong dtype. Was " ++ actual ++
        ", expected " ++ expected
  | .unexpectedColumns surplus =>
      "DataFrame contained unexpected column(s): " ++ String.intercalate ", " surplus

/-- A Python exception raised by the wrappers: an `AssertionError` with its
message, or the `KeyError` escaping from `kwargs[name]`. -/
inductive PyError
| assertError (msg : String)
| keyError (key : String)
deriving Repr, DecidableEq

/-- The presence loop of `_check_columns` for a list specification. -/
def checkList (df : DataFrame) : List String → Except CheckError Unit
  | [] => .ok ()
  | column :: rest =>
    if column ∈ columns df then checkList df rest
    else .error (.missingColumn column (columns df))

/-- The presence-and-dtype loop of `_check_columns` for a dict specification.
The `col_dtype_dict[column]` lookup cannot fail once `column ∈ df.columns`,
because `df.columns` and `df.dtypes` derive from the same schema fields; the
`getD` default is therefore never consulted. -/
def checkDict (df : DataFrame) : List (String × String) → Except CheckError Unit
  | [] => .ok ()
  | (column, dtype) :: rest =>
    if column ∈ columns df then
      let actual := (colDtypeDict df column).getD ""
      if actual = dtype then checkDict df rest
      else .error (.dtypeMismatch column actual dtype)
    else .error (.missingColumn column (columns df))

/-- The per-item loops of `_check_columns`: dispatch on the two `isinstance`
tests; any other container matches neither and no item is checked. -/
def itemChecks (df : DataFrame) : ColumnsDef → Except CheckError Unit
  | .listSpec l => checkList df l
  | .dictSpec m => checkDict df m
  | .tupleSpec _ => .ok ()

/-- Embeds `len(columns)` for each specification shape. -/
def specLen : ColumnsDef → Nat
  | .listSpec l => l.length
  | .dictSpec m => m.length
  | .tupleSpec t => t.length

/-- The names `set(columns)` iterates over: the elements of a list or tuple,
the keys of a dict. -/
def specNames : ColumnsDef → List String
  | .listSpec l => l
  | .dictSpec m => m.map Prod.fst
  | .tupleSpec t => t

/-- Embeds `set(a) - set(b)` as a duplicate-free list. Python iterates a set in an
unspecified order; the model fixes one, and every claim about this value is
stated up to set membership. -/
def pySetDiff (a b : List String) : List String :=
  (a.filter (fun x => decide (x ∉ b))).dedup

/-- The strict tail of `_check_columns`: compare counts, report the surplus. -/
def strictCheck (df : DataFrame) (cols : ColumnsDef) (strict : Bool) :
    Except CheckError Unit :=
  if strict then
    if (columns df).length = specLen cols then .ok ()
    else .error (.unexpectedColumns (pySetDiff (columns df) (specNames cols)))
  else .ok ()

/-- Embeds `_check_columns(df, columns, strict)`: the per-item loops, then the
strict count check; the first failing `assert` aborts the rest. -/
def checkColumns (df : DataFrame) (cols : ColumnsDef) (strict : Bool) :
    Except CheckError Unit :=
  match itemChecks df cols with
  | .ok _ => strictCheck df cols strict
  | .error e => .error e

/-- A Python runtime value, as far as the wrappers can tell them apart. -/
inductive PyValue
| dataframe (df : DataFrame)
| pyNone
| pyStr (s : String)
| pyInt (n : Int)
deriving Repr, DecidableEq

/-- Embeds `type(v).__name__`. -/
def typeName : PyValue → String
  | .dataframe _ => "DataFrame"
  | .pyNone => "NoneType"
  | .pyStr _ => "str"
  | .pyInt _ => "int"

/-- Embeds `str(type(v))`, as interpolated by the `df_out` assertion message. -/
def typeRepr (v : PyValue) : String :=
  "<class " ++ sq ++
    (match v with
     | .dataframe _ => "pyspark.sql.dataframe.DataFrame"
     | .pyNone => "NoneType"
     | .pyStr _ => "str"
     | .pyInt _ => "int") ++ sq ++ ">"

/-- Embeds `str(v)`, as `print` renders a positional argument. -/
def pyToStr : PyValue → String
  | .dataframe df =>
      "DataFrame[" ++
        String.intercalate ", " (df.fields.map (fun p => p.1 ++ ": " ++ p.2)) ++ "]"
  | .pyNone => "None"
  | .pyStr s => s
  | .pyInt n => toString n

/-- Embeds `isinstance(v, DataFrame)`. -/
def isDataFrame : PyValue → Bool
  | .dataframe _ => true
  | _ => false

/-- Positional arguments of a call. -/
abbrev Args := List PyValue

/-- Keyword arguments of a call: an association list with distinct keys
(Python guarantees keyword names are unique). -/
abbrev Kwargs := List (String × PyValue)

/-- Embeds `_get_parameter(name, *args, **kwargs)`. Python tests `if not name:`,
which is True both for `None` and for the empty string, so an empty-string
name falls into the positional branch; `kwargs[name]` raises `KeyError` when
the keyword is absent. -/
def getParameter (name : Option String) (args : Args) (kwargs : Kwargs) :
    Except PyError PyValue :=
  match name with
  | none => .ok (args.headD .pyNone)
  | some n =>
    if n = "" then .ok (args.headD .pyNone)
    else
      match kwargs.lookup n with
      | some v => .ok v
      | none => .error (.keyError n)

/-- The `df_in` wrapper's assertion message for a non-dataframe parameter. -/
def wrongParamMsg (v : PyValue) : String :=
  "Wrong parameter type. Expected Spark DataFrame, got " ++ typeName v ++ " instead."

/-- The `df_out` wrapper's assertion message for a non-dataframe result. -/
def wrongReturnMsg (v : PyValue) : String :=
  "Wrong return type. Expected spark dataframe, got " ++ typeRepr v

/-- One call of a function wrapped by `df_out(columns, strict)`: invoke the
function, assert the result is a dataframe, run `_check_columns` when the
specification is truthy, return the result. The second component records the
argument pairs the wrapped function was invoked with. -/
def dfOutRun (cols : Option ColumnsDef) (strict : Bool)
    (f : Args → Kwargs → PyValue) (args : Args) (kwargs : Kwargs) :
    Except PyError PyValue × List (Args × Kwargs) :=
  let result := f args kwargs
  let calls := [(args, kwargs)]
  match result with
  | .dataframe df =>
    match cols with
    | some c =>
      if specLen c != 0 then
        match checkColumns df c strict with
        | .ok _ => (.ok result, calls)
        | .error e => (.error (.assertError (renderCheckError e)), calls)
      else (.ok result, calls)
    | none => (.ok result, calls)
  | other => (.error (.assertError (wrongReturnMsg other)), calls)

/-- One call of a function wrapped by `df_in(name, columns, strict)`: resolve
the parameter, assert it is a dataframe, run `_check_columns` when the
specification is truthy, then invoke the wrapped function on the original
arguments and return its result. The second component records the argument
pairs the wrapped function was invoked with. -/
def dfInRun (name : Option String) (cols : Option ColumnsDef) (strict : Bool)
    (f : Args → Kwargs → PyValue) (args : Args) (kwargs : Kwargs) :
    Except PyError PyValue × List (Args × Kwargs) :=
  match getParameter name args kwargs with
  | .error e => (.error e, [])
  | .ok v =>
    match v with
    | .dataframe df =>
      match cols with
      | some c =>
        if specLen c != 0 then
          match checkColumns df c strict with
          | .ok _ => (.ok (f args kwargs), [(args, kwargs)])
          | .error e => (.error (.assertError (renderCheckError e)), [])
        else (.ok (f args kwargs), [(args, kwargs)])
      | none => (.ok (f args kwargs), [(args, kwargs)])
    | other => (.error (.assertError (wrongParamMsg other)), [])

/-- Embeds `_log_input`: the stray debug `print("log_input\n", df)` always fires,
then the diagnostic line when the value is a dataframe. Each list element is
the string one `print` call writes (its trailing newline left implicit);
`print` joins its two arguments with a single space. -/
def logInput (funcName : String) (v : PyValue) (includeDtypes : Bool) :
    List String :=
  ("log_input\n " ++ pyToStr v) ::
    (match v with
     | .dataframe df =>
        ["Function " ++ funcName ++ " parameters contained a DataFrame: " ++
          describeDf df includeDtypes]
     | _ => [])

/-- Embeds `_log_output`: the diagnostic line when the result is a dataframe. -/
def logOutput (funcName : String) (v : PyValue) (includeDtypes : Bool) :
    List String :=
  match v with
  | .dataframe df =>
      ["Function " ++ funcName ++ " returned a DataFrame: " ++
        describeDf df includeDtypes]
  | _ => []

/-- One call of a function wrapped by `df_log(name, include_dtypes)`: resolve
the parameter (a `KeyError` from resolution propagates), log the input, invoke
the function, log the output. The wrapper body has no `return` statement, so
on completion Python returns `None`. The second component is the list of
strings printed to stdout. -/
def dfLogRun (name : Option String) (includeDtypes : Bool) (funcName : String)
    (f : Args → Kwargs → PyValue) (args : Args) (kwargs : Kwargs) :
    Except PyError PyValue × List String :=
  match getParameter name args kwargs with
  | .error e => (.error e, [])
  | .ok v =>
    let inLogs := logInput funcName v includeDtypes
    let result := f args kwargs
    let outLogs := logOutput funcName result includeDtypes
    (.ok .pyNone, inLogs ++ outLogs)

/-- Newlines inside one printed string. -/
def newlineCount (s : String) : Nat := s.toList.count nl

/-- Lines of standard output produced by a list of `print` events: each event
ends with a newline and may contain embedded newlines. -/
def stdoutLineCount (events : List String) : Nat :=
  (events.map (fun e => 1 + newlineCount e)).sum

/-- The `basic_df` fixture of the test suite: columns Brand (string) and
Price (int). -/
def basicDf : DataFrame := ⟨[("Brand", "string"), ("Price", "int")]⟩

/-- A one-column dataframe used as a concrete counterexample input. -/
def singleColDf : DataFrame := ⟨[("a", "int")]⟩

/-- One dict-specification entry passes its presence and dtype asserts. -/
def entryOk (df : DataFrame) (p : String × String) : Prop :=
  p.1 ∈ columns df ∧ colDtypeDict df p.1 = some p.2

/-- Membership of a key in the projection of an association list guarantees a
successful lookup. -/
theorem exists_lookup_of_mem_fst (l : List (String × String)) (c : String)
    (h : c ∈ l.map Prod.fst) : ∃ a, l.lookup c = some a := by
  induction l with
  | nil => simp at h
  | cons p t ih =>
    by_cases hc : c = p.1
    · exact ⟨p.2, by simp [List.lookup, hc]⟩
    · have hmem : c ∈ t.map Prod.fst := by
        rcases List.mem_map.mp h with ⟨q, hq, hqc⟩
        rcases List.mem_cons.mp hq with hq1 | hq2
        · exact absurd (hqc ▸ congrArg Prod.fst hq1.symm) fun hx => hc (by simp [hx])
        · exact List.mem_map.mpr ⟨q, hq2, hqc⟩
      rcases ih hmem with ⟨a, ha⟩
      have hb : (c == p.1) = false := beq_eq_false_iff_ne.mpr hc
      exact ⟨a, by simp [List.lookup, hb, ha]⟩

/-- A present column always has a dtype in `dict(df.dtypes)`. -/
theorem colDtypeDict_isSome (df : DataFrame) (c : String)
    (h : c ∈ columns df) : ∃ a, colDtypeDict df c = some a := by
  apply exists_lookup_of_mem_fst
  rw [List.map_reverse, List.mem_reverse]
  exact h

/-- The presence loop succeeds exactly when every listed name is a column. -/
theorem checkList_ok_iff (df : DataFrame) (l : List String) :
    checkList df l = .ok () ↔ ∀ c ∈ l, c ∈ columns df := by
  induction l with
  | nil => simp [checkList]
  | cons c rest ih =>
    by_cases h : c ∈ columns df
    · simp [checkList, h, ih]
    · simp [checkList, h]

/-- The dict loop succeeds exactly when every entry is present with exactly
the expected dtype string. -/
theorem checkDict_ok_iff (df : DataFrame) (m : List (String × String)) :
    checkDict df m = .ok () ↔ ∀ p ∈ m, entryOk df p := by
  induction m with
  | nil => simp [checkDict]
  | cons p rest ih =>
    obtain ⟨c, dt⟩ := p
    by_cases h : c ∈ columns df
    · obtain ⟨a, ha⟩ := colDtypeDict_isSome df c h
      by_cases hd : a = dt
      · subst hd
        simp [checkDict, h, ha, ih, entryOk]
      · simp [checkDict, h, ha, hd, entryOk]
    · simp [checkDict, h, entryOk]

/-- The first absent name in a list specification aborts the presence loop,
whatever follows it. -/
theorem checkList_first_missing (df : DataFrame) (l1 : List String)
    (c : String) (l2 : List String) (h1 : ∀ x ∈ l1, x ∈ columns df)
    (h2 : c ∉ columns df) :
    checkList df (l1 ++ c :: l2) = .error (.missingColumn c (columns df)) := by
  induction l1 with
  | nil => simp [checkList, h2]
  | cons x t ih =>
    have hx : x ∈ columns df := h1 x (by simp)
    simpa [checkList, hx] using ih (fun y hy => h1 y (by simp [hy]))

/-- The first absent name in a dict specification aborts the loop. -/
theorem checkDict_first_missing (df : DataFrame) (m1 : List (String × String))
    (c dt : String) (m2 : List (String × String))
    (h1 : ∀ p ∈ m1, entryOk df p) (h2 : c ∉ columns df) :
    checkDict df (m1 ++ (c, dt) :: m2) =
      .error (.missingColumn c (columns df)) := by
  induction m1 with
  | nil => simp [checkDict, h2]
  | cons p t ih =>
    obtain ⟨hp1, hp2⟩ := h1 p (by simp)
    simpa [checkDict, hp1, hp2] using ih (fun q hq => h1 q (by simp [hq]))

/-- The first dtype mismatch in a dict specification aborts the loop. -/
theorem checkDict_first_mismatch (df : DataFrame) (m1 : List (String × String))
    (c dt a : String) (m2 : List (String × String))
    (h1 : ∀ p ∈ m1, entryOk df p) (h2 : c ∈ columns df)
    (ha : colDtypeDict df c = some a) (hne : a ≠ dt) :
    checkDict df (m1 ++ (c, dt) :: m2) =
      .error (.dtypeMismatch c a dt) := by
  induction m1 with
  | nil => simp [checkDict, h2, ha, hne]
  | cons p t ih =>
    obtain ⟨hp1, hp2⟩ := h1 p (by simp)
    simpa [checkDict, hp1, hp2] using ih (fun q hq => h1 q (by simp [hq]))

/-- The modelled set difference has exactly the membership of the Python one. -/
theorem pySetDiff_toFinset (a b : List String) :
    (pySetDiff a b).toFinset = a.toFinset \ b.toFinset := by
  ext x
  simp [pySetDiff, List.mem_filter]

theorem checkColumns_dict_false_ok_iff (df : DataFrame)
    (m : List (String × String)) :
    checkColumns df (.dictSpec m) false = .ok () ↔ checkDict df m = .ok () := by
  cases h : checkDict df m with
  | ok u => cases u; simp [checkColumns, itemChecks, h, strictCheck]
  | error e => simp [checkColumns, itemChecks, h]

/-- C1 (code-bug evidence): the claim says a `df_log`-wrapped call returns the
wrapped function result unmodified, but the wrapper body has no return
statement: on the claimed scenario (a function returning `basicDf`, called on
`basicDf`) the wrapper completes with Python `None`, which is not the wrapped
function result. -/
theorem c1_df_log_returns_none :
    (dfLogRun none false "test_fn" (fun _ _ => PyValue.dataframe basicDf)
        [PyValue.dataframe basicDf] []).1 = .ok PyValue.pyNone ∧
    decide (PyValue.pyNone = PyValue.dataframe basicDf) = false :=
  ⟨rfl, rfl⟩

/-- C2 counterexample: with the name-list specification `["a", "a"]` against a
dataframe whose only column is `a`, every presence check passes, yet the
strict check fails with `UnexpectedColumns` although the actual column count
(1) does not exceed the specified count (2) — refuting "fails exactly when
the actual column count exceeds the number of specified columns". -/
theorem c2_counterexample :
    checkColumns singleColDf (.listSpec ["a", "a"]) false = .ok () ∧
    checkColumns singleColDf (.listSpec ["a", "a"]) true =
      .error (.unexpectedColumns []) ∧
    decide ((columns singleColDf).length > (["a", "a"] : List String).length) =
      false :=
  ⟨rfl, rfl, rfl⟩

/-- C2 (amended): once the presence checks of a name-list specification — or
the presence and dtype checks of a name-to-dtype mapping specification —
pass, `_check_columns` with `strict = True` fails with `UnexpectedColumns`
exactly when the actual column count differs from the number of entries in
the specification (for a duplicate-free specification this can only be an
excess); and for every dataframe with column set `C` and every proper subset
`S` supplied as the name list, the strict check fails listing, as a set,
exactly `C − S`. -/
theorem c2_strict_unexpected :
    (∀ (df : DataFrame) (l : List String),
      (∀ c ∈ l, c ∈ columns df) →
      checkColumns df (.listSpec l) true =
        if (columns df).length = l.length then .ok ()
        else .error (.unexpectedColumns (pySetDiff (columns df) l))) ∧
    (∀ (df : DataFrame) (m : List (String × String)),
      (∀ p ∈ m, p.1 ∈ columns df ∧ colDtypeDict df p.1 = some p.2) →
      checkColumns df (.dictSpec m) true =
        if (columns df).length = m.length then .ok ()
        else .error (.unexpectedColumns (pySetDiff (columns df) (m.map Prod.fst)))) ∧
    (∀ (df : DataFrame) (l : List String),
      l.Nodup → l.toFinset ⊂ (columns df).toFinset →
      checkColumns df (.listSpec l) true =
        .error (.unexpectedColumns (pySetDiff (columns df) l)) ∧
      (pySetDiff (columns df) l).toFinset =
        (columns df).toFinset \ l.toFinset) := by
  refine ⟨?_, ?_, ?_⟩
  · intro df l h
    have hok : checkList df l = .ok () := (checkList_ok_iff df l).mpr h
    simp [checkColumns, itemChecks, hok, strictCheck, specLen, specNames]
  · intro df m h
    have hok : checkDict df m = .ok () := (checkDict_ok_iff df m).mpr h
    simp [checkColumns, itemChecks, hok, strictCheck, specLen, specNames]
  · intro df l hnd hsub
    have hpres : ∀ c ∈ l, c ∈ columns df := by
      intro c hc
      exact List.mem_toFinset.mp (hsub.subset (List.mem_toFinset.mpr hc))
    have hcardlt : l.toFinset.card < (columns df).toFinset.card :=
      Finset.card_lt_card hsub
    have hcardl : l.toFinset.card = l.length := List.toFinset_card_of_nodup hnd
    have hcardc : (columns df).toFinset.card ≤ (columns df).length :=
      List.toFinset_card_le (columns df)
    have hne : ¬((columns df).length = l.length) := by omega
    have hok : checkList df l = .ok () := (checkList_ok_iff df l).mpr hpres
    refine ⟨?_, pySetDiff_toFinset _ _⟩
    simp [checkColumns, itemChecks, hok, strictCheck, specLen, specNames, hne]

/-- C2 witness: `basicDf` (columns Brand, Price) against the proper subset
`["Brand"]` fails strictly, listing exactly `{Price}`. -/
theorem c2_witness :
    checkColumns basicDf (.listSpec ["Brand"]) true =
      .error (.unexpectedColumns (pySetDiff (columns basicDf) ["Brand"])) ∧
    (pySetDiff (columns basicDf) ["Brand"]).toFinset =
      (columns basicDf).toFinset \ (["Brand"] : List String).toFinset :=
  c2_strict_unexpected.2.2 basicDf ["Brand"] (by decide) (by decide)

/-- C3 (confirmed): for a name-to-dtype mapping specification,
`_check_columns` succeeds exactly when each listed column is present and its
actual dtype string (from `dict(df.dtypes)`) equals the expected dtype string
exactly (case-sensitive, no coercion); a mismatch raises the message
`Column <name> has wrong dtype. Was <actual>, expected <expected>`, e.g.
exactly `Column Price has wrong dtype. Was int, expected float` for an actual
`int` column expected to be `float`. -/
theorem c3_dict_dtype_check :
    (∀ (df : DataFrame) (m : List (String × String)),
      checkColumns df (.dictSpec m) false = .ok () ↔
        ∀ p ∈ m, p.1 ∈ columns df ∧ colDtypeDict df p.1 = some p.2) ∧
    (checkColumns basicDf (.dictSpec [("Price", "float")]) false =
        .error (.dtypeMismatch "Price" "int" "float") ∧
      renderCheckError (.dtypeMismatch "Price" "int" "float") =
        "Column Price has wrong dtype. Was int, expected float") := by
  refine ⟨fun df m => ?_, rfl, by decide⟩
  rw [checkColumns_dict_false_ok_iff, checkDict_ok_iff]
  simp only [entryOk]

/-- C3 witness: a matching dtype mapping against `basicDf` succeeds. -/
theorem c3_witness :
    checkColumns basicDf (.dictSpec [("Brand", "string"), ("Price", "int")])
      false = .ok () :=
  (c3_dict_dtype_check.1 basicDf _).mpr (by decide)

/-- C4 (confirmed): the `df_in` wrapper runs the dataframe-instance check on
every call whose parameter resolution completes, whatever the column
specification (including none): a resolved non-dataframe value always raises
`Wrong parameter type. Expected Spark DataFrame, got <type> instead.`. -/
theorem c4_in_type_check (name : Option String) (cols : Option ColumnsDef)
    (strict : Bool) (f : Args → Kwargs → PyValue) (args : Args)
    (kwargs : Kwargs) (v : PyValue)
    (h1 : getParameter name args kwargs = .ok v)
    (h2 : isDataFrame v = false) :
    (dfInRun name cols strict f args kwargs).1 =
      .error (.assertError (wrongParamMsg v)) := by
  cases v with
  | dataframe df => simp [isDataFrame] at h2
  | pyNone => simp [dfInRun, h1]
  | pyStr s => simp [dfInRun, h1]
  | pyInt n => simp [dfInRun, h1]

/-- C4 witness: a call with zero positional arguments and no configured name
resolves to `None` and fails with exactly the claimed `NoneType` message. -/
theorem c4_witness :
    (dfInRun none none false (fun _ _ => PyValue.pyNone) [] []).1 =
      .error (.assertError
        "Wrong parameter type. Expected Spark DataFrame, got NoneType instead.") := by
  have h := c4_in_type_check none none false (fun _ _ => PyValue.pyNone) [] []
      PyValue.pyNone rfl rfl
  have hmsg : wrongParamMsg PyValue.pyNone =
      "Wrong parameter type. Expected Spark DataFrame, got NoneType instead." := by
    decide
  rw [hmsg] at h
  exact h

/-- C5 counterexample: the claim says the `df_log` wrapper itself never
raises, regardless of configuration; but configured with `name="df"` and
called without that keyword, the `kwargs[name]` lookup inside parameter
resolution raises a `KeyError` that escapes the wrapper. -/
theorem c5_counterexample :
    (dfLogRun (some "df") false "test_fn" (fun _ _ => PyValue.pyNone) [] []).1 =
      .error (.keyError "df") := rfl

/-- C5 (amended): whenever parameter resolution completes, the `df_log`
wrapper never raises — a non-dataframe resolved value or return value merely
skips logging for that side — but when a configured name is absent from the
keyword arguments, the `KeyError` from resolution propagates to the caller. -/
theorem c5_log_raises_only_keyerror :
    (∀ (name : Option String) (inc : Bool) (fname : String)
       (f : Args → Kwargs → PyValue) (args : Args) (kwargs : Kwargs)
       (v : PyValue),
      getParameter name args kwargs = .ok v →
      (dfLogRun name inc fname f args kwargs).1 = .ok PyValue.pyNone) ∧
    (∀ (name : Option String) (inc : Bool) (fname : String)
       (f : Args → Kwargs → PyValue) (args : Args) (kwargs : Kwargs)
       (e : PyError),
      getParameter name args kwargs = .error e →
      (dfLogRun name inc fname f args kwargs).1 = .error e) := by
  constructor
  · intro name inc fname f args kwargs v h
    simp [dfLogRun, h]
  · intro name inc fname f args kwargs e h
    simp [dfLogRun, h]

/-- C5 witness: a `df_log` call on a non-dataframe argument completes without
raising. -/
theorem c5_witness :
    (dfLogRun none false "test_fn" (fun _ _ => PyValue.pyStr "x") [] []).1 =
      .ok PyValue.pyNone :=
  c5_log_raises_only_keyerror.1 none false "test_fn" _ [] [] PyValue.pyNone rfl

/-- C6 (code-bug evidence): on the claimed scenario (a wrapped function taking
and returning a dataframe with columns Brand, Price) the wrapper performs
three `print` events, not two: a stray debug `print("log_input\n", df)` always
precedes the input diagnostic line, so stdout carries four lines in total
instead of the claimed two. -/
theorem c6_stray_debug_print :
    ((dfLogRun none false "test_fn" (fun _ _ => PyValue.dataframe basicDf)
        [PyValue.dataframe basicDf] []).2).length = 3 ∧
    stdoutLineCount
      ((dfLogRun none false "test_fn" (fun _ _ => PyValue.dataframe basicDf)
        [PyValue.dataframe basicDf] []).2) = 4 ∧
    ((dfLogRun none false "test_fn" (fun _ _ => PyValue.dataframe basicDf)
        [PyValue.dataframe basicDf] []).2).headD "" =
      "log_input\n " ++ pyToStr (PyValue.dataframe basicDf) :=
  ⟨rfl, rfl, rfl⟩

/-- C7 counterexample: `_get_parameter` tests `if not name:`, so a supplied
empty-string name is treated as no name: it returns the first positional
argument (or `None`) instead of performing — and propagating the failure of —
the `kwargs[""]` lookup the claim requires for every given name. -/
theorem c7_counterexample :
    getParameter (some "") [PyValue.pyInt 7] [] = .ok (PyValue.pyInt 7) ∧
    getParameter (some "") [] [("", PyValue.pyInt 9)] = .ok PyValue.pyNone ∧
    decide (PyValue.pyNone = PyValue.pyInt 9) = false :=
  ⟨rfl, rfl, rfl⟩

/-- C7 (amended): when no name — or the falsy empty-string name — is given,
the resolver returns the first positional argument if any exist and the
`None` sentinel otherwise; when a non-empty name is given it returns
`kwargs[name]`, and when that keyword is absent the underlying `KeyError`
propagates to the caller unswallowed. -/
theorem c7_get_parameter_amended :
    (∀ (args : Args) (kwargs : Kwargs),
      getParameter none args kwargs = .ok (args.headD PyValue.pyNone) ∧
      getParameter (some "") args kwargs = .ok (args.headD PyValue.pyNone)) ∧
    (∀ (n : String) (args : Args) (kwargs : Kwargs) (v : PyValue),
      n ≠ "" → kwargs.lookup n = some v →
      getParameter (some n) args kwargs = .ok v) ∧
    (∀ (n : String) (args : Args) (kwargs : Kwargs),
      n ≠ "" → kwargs.lookup n = none →
      getParameter (some n) args kwargs = .error (.keyError n)) := by
  refine ⟨fun args kwargs => ⟨rfl, rfl⟩,
    fun n args kwargs v hn hl => ?_, fun n args kwargs hn hl => ?_⟩
  · simp [getParameter, hn, hl]
  · simp [getParameter, hn, hl]

/-- C7 witness: a non-empty name absent from the keyword arguments raises
`KeyError` of that name. -/
theorem c7_witness :
    getParameter (some "df") [] [] = .error (.keyError "df") :=
  c7_get_parameter_amended.2.2 "df" [] [] (by decide) rfl

/-- C8 (confirmed): on every call where all checks pass (the wrapper
completes successfully), `df_out` and `df_in` each invoke the wrapped
function exactly once, with the original positional and keyword arguments
unchanged, and return its result unmodified. -/
theorem c8_wrappers_transparent :
    (∀ (cols : Option ColumnsDef) (strict : Bool)
       (f : Args → Kwargs → PyValue) (args : Args) (kwargs : Kwargs),
      (∃ r, (dfOutRun cols strict f args kwargs).1 = .ok r) →
      (dfOutRun cols strict f args kwargs).1 = .ok (f args kwargs) ∧
      (dfOutRun cols strict f args kwargs).2 = [(args, kwargs)]) ∧
    (∀ (name : Option String) (cols : Option ColumnsDef) (strict : Bool)
       (f : Args → Kwargs → PyValue) (args : Args) (kwargs : Kwargs),
      (∃ r, (dfInRun name cols strict f args kwargs).1 = .ok r) →
      (dfInRun name cols strict f args kwargs).1 = .ok (f args kwargs) ∧
      (dfInRun name cols strict f args kwargs).2 = [(args, kwargs)]) := by
  constructor
  · intro cols strict f args kwargs h
    obtain ⟨r, hr⟩ := h
    cases hfa : f args kwargs with
    | dataframe df =>
      cases cols with
      | none => exact ⟨by simp [dfOutRun, hfa], by simp [dfOutRun, hfa]⟩
      | some c =>
        by_cases hl : (specLen c != 0) = true
        · cases hchk : checkColumns df c strict with
          | ok u =>
            cases u
            exact ⟨by simp [dfOutRun, hfa, hl, hchk],
              by simp [dfOutRun, hfa, hl, hchk]⟩
          | error e => simp [dfOutRun, hfa, hl, hchk] at hr
        · exact ⟨by simp [dfOutRun, hfa, hl], by simp [dfOutRun, hfa, hl]⟩
    | pyNone => simp [dfOutRun, hfa] at hr
    | pyStr s => simp [dfOutRun, hfa] at hr
    | pyInt n => simp [dfOutRun, hfa] at hr
  · intro name cols strict f args kwargs h
    obtain ⟨r, hr⟩ := h
    cases hgp : getParameter name args kwargs with
    | error e => simp [dfInRun, hgp] at hr
    | ok v =>
      cases v with
      | dataframe df =>
        cases cols with
        | none => exact ⟨by simp [dfInRun, hgp], by simp [dfInRun, hgp]⟩
        | some c =>
          by_cases hl : (specLen c != 0) = true
          · cases hchk : checkColumns df c strict with
            | ok u =>
              cases u
              exact ⟨by simp [dfInRun, hgp, hl, hchk],
                by simp [dfInRun, hgp, hl, hchk]⟩
            | error e => simp [dfInRun, hgp, hl, hchk] at hr
          · exact ⟨by simp [dfInRun, hgp, hl], by simp [dfInRun, hgp, hl]⟩
      | pyNone => simp [dfInRun, hgp] at hr
      | pyStr s => simp [dfInRun, hgp] at hr
      | pyInt n => simp [dfInRun, hgp] at hr

/-- C8 witness: a passing `df_in` call returns the wrapped function result
and invoked it exactly once on the original arguments. -/
theorem c8_witness :
    (dfInRun none none false (fun _ _ => PyValue.pyInt 5)
        [PyValue.dataframe basicDf] []).1 = .ok (PyValue.pyInt 5) ∧
    (dfInRun none none false (fun _ _ => PyValue.pyInt 5)
        [PyValue.dataframe basicDf] []).2 = [([PyValue.dataframe basicDf], [])] :=
  c8_wrappers_transparent.2 none none false (fun _ _ => PyValue.pyInt 5)
    [PyValue.dataframe basicDf] [] ⟨PyValue.pyInt 5, rfl⟩

/-- C9 (confirmed): checking is short-circuit per item within the presence
and dtype loops of `_check_columns`: the first failing item (absent column in
a list spec; absent column or mismatched dtype in a dict spec) raises
immediately, the items after it are never examined, the strict tail is
skipped, and — the result being a single error — violations are never
aggregated: at most one violation is reported per invocation. -/
theorem c9_short_circuit :
    (∀ (df : DataFrame) (l1 : List String) (c : String) (l2 : List String)
       (strict : Bool),
      (∀ x ∈ l1, x ∈ columns df) → c ∉ columns df →
      checkColumns df (.listSpec (l1 ++ c :: l2)) strict =
        .error (.missingColumn c (columns df))) ∧
    (∀ (df : DataFrame) (m1 : List (String × String)) (c dt : String)
       (m2 : List (String × String)) (strict : Bool),
      (∀ p ∈ m1, entryOk df p) → c ∉ columns df →
      checkColumns df (.dictSpec (m1 ++ (c, dt) :: m2)) strict =
        .error (.missingColumn c (columns df))) ∧
    (∀ (df : DataFrame) (m1 : List (String × String)) (c dt a : String)
       (m2 : List (String × String)) (strict : Bool),
      (∀ p ∈ m1, entryOk df p) → c ∈ columns df →
      colDtypeDict df c = some a → a ≠ dt →
      checkColumns df (.dictSpec (m1 ++ (c, dt) :: m2)) strict =
        .error (.dtypeMismatch c a dt)) := by
  refine ⟨fun df l1 c l2 strict h1 h2 => ?_,
    fun df m1 c dt m2 strict h1 h2 => ?_,
    fun df m1 c dt a m2 strict h1 h2 ha hne => ?_⟩
  · simp [checkColumns, itemChecks, checkList_first_missing df l1 c l2 h1 h2]
  · simp [checkColumns, itemChecks, checkDict_first_missing df m1 c dt m2 h1 h2]
  · simp [checkColumns, itemChecks,
      checkDict_first_mismatch df m1 c dt a m2 h1 h2 ha hne]

/-- C9 witness: with spec `["Brand", "Year", "Bogus"]` against `basicDf`, the
first missing column `Year` is reported, not the later `Bogus`, and not the
strict surplus. -/
theorem c9_witness :
    checkColumns basicDf (.listSpec ["Brand", "Year", "Bogus"]) true =
      .error (.missingColumn "Year" (columns basicDf)) :=
  c9_short_circuit.1 basicDf ["Brand"] "Year" ["Bogus"] true (by decide)
    (by decide)

/-- C10 (confirmed): for a specification that is neither exactly a list nor
exactly a dict (e.g. a tuple of names), `_check_columns` performs no presence
or dtype check at all, yet with `strict = True` it still fails with
`UnexpectedColumns` exactly when the dataframe column count differs from the
specification length; and the wrappers hand any truthy specification to
`_check_columns`, as the concrete `df_in` call with a tuple spec shows. -/
theorem c10_tuple_spec :
    (∀ (df : DataFrame) (t : List String) (strict : Bool),
      checkColumns df (.tupleSpec t) strict =
        if strict && ((columns df).length != t.length) then
          .error (.unexpectedColumns (pySetDiff (columns df) t))
        else .ok ()) ∧
    (dfInRun none (some (.tupleSpec ["Brand"])) true (fun _ _ => PyValue.pyNone)
        [PyValue.dataframe basicDf] []).1 =
      .error (.assertError "DataFrame contained unexpected column(s): Price") := by
  constructor
  · intro df t strict
    cases strict with
    | false => simp [checkColumns, itemChecks, strictCheck]
    | true =>
      by_cases h : (columns df).length = t.length
      · simp [checkColumns, itemChecks, strictCheck, specLen, specNames, h]
      · simp [checkColumns, itemChecks, strictCheck, specLen, specNames, h]
  · rfl

end Valido
